import Mathlib

/-!
Shallow embedding of the screen-share permission dialog logic
(`ScreenSharePermissionDialog`): the error classifier `getErrorInfo`,
the permission requester `requestScreenShare` (modelled as the list of
observable actions it performs), the capture constraints
`DISPLAY_CONSTRAINTS`, and the remediation lookup `troubleshootingData`.
-/

/- The error category constants from the source (`ERROR_TYPES`).
In the code these are string literals attached to an `ErrorInfo`. -/
namespace ERROR_TYPES

def HTTPS : String := "https"

def NOT_SUPPORTED : String := "not-supported"

def PERMISSION : String := "permission"

def GENERAL : String := "general"

end ERROR_TYPES

/-- An `{ ideal, max }` pair inside the video constraints object. -/
structure IdealMax where
  ideal : Nat
  max : Nat
deriving DecidableEq, Repr

/-- The `video` sub-object of the display constraints. -/
structure VideoConstraints where
  width : IdealMax
  height : IdealMax
  frameRate : IdealMax
deriving DecidableEq, Repr

/-- The constraints object passed to the capture-request function. -/
structure DisplayConstraints where
  video : VideoConstraints
  audio : Bool
deriving DecidableEq, Repr

/-- The source constant `DISPLAY_CONSTRAINTS`: ideal/max 1920x1080 at
60fps, audio disabled. -/
def DISPLAY_CONSTRAINTS : DisplayConstraints :=
  { video :=
      { width := { ideal := 1920, max := 1920 }
      , height := { ideal := 1080, max := 1080 }
      , frameRate := { ideal := 60, max := 60 } }
  , audio := false }

/-- The browser environment as the classifier observes it:
`navigator.mediaDevices` may be absent; if present,
`navigator.mediaDevices.getDisplayMedia` may be absent; or both present. -/
inductive Env where
  | noMediaDevices
  | noGetDisplayMedia
  | full
deriving DecidableEq, Repr

/-- The raw failure value (`err : unknown` in the source): a platform
`DOMException` carrying a name, a plain JS `Error` carrying a message,
or a shapeless/nullish value (null, undefined, ...). -/
inductive RawFailure where
  | domException (name : String)
  | jsError (message : String)
  | nullish
deriving DecidableEq, Repr

/-- The `ErrorInfo` record of the source: an error-category tag (one of
the `ERROR_TYPES` strings) and a user-facing message. -/
structure ErrorInfo where
  type : String
  message : String
deriving DecidableEq, Repr

/-- The classifier `getErrorInfo` from the source: first the two
environment checks (`navigator.mediaDevices` presence, then
`getDisplayMedia` presence), then the `DOMException` name switch, then
the shapeless default. -/
def getErrorInfo (env : Env) (err : RawFailure) : ErrorInfo :=
  match env with
  | Env.noMediaDevices =>
      { type := ERROR_TYPES.HTTPS
      , message := "Screen sharing requires a secure connection (HTTPS)" }
  | Env.noGetDisplayMedia =>
      { type := ERROR_TYPES.NOT_SUPPORTED
      , message := "Screen sharing not supported in this browser" }
  | Env.full =>
      match err with
      | RawFailure.domException name =>
          if name = "NotAllowedError" then
            { type := ERROR_TYPES.PERMISSION
            , message := "Screen sharing access denied" }
          else if name = "NotFoundError" then
            { type := ERROR_TYPES.GENERAL
            , message := "No screen available for sharing" }
          else if name = "NotReadableError" then
            { type := ERROR_TYPES.GENERAL
            , message := "Screen is already being captured" }
          else if name = "OverconstrainedError" then
            { type := ERROR_TYPES.GENERAL
            , message := "Screen doesn\x27t meet capture requirements" }
          else if name = "SecurityError" then
            { type := ERROR_TYPES.HTTPS
            , message := "Security error accessing screen" }
          else if name = "AbortError" then
            { type := ERROR_TYPES.PERMISSION
            , message := "Screen sharing was cancelled" }
          else
            { type := ERROR_TYPES.GENERAL
            , message := "Screen sharing error: " ++ name }
      | _ =>
          { type := ERROR_TYPES.GENERAL
          , message := "Failed to access screen" }

/-- Claim C1: with the capability surface and the capture-request
function both present (the preceding environment checks of §4.2 pass),
`getErrorInfo` maps each of the six recognized exception names to
exactly the category/message pair of the spec table: NotAllowedError
and AbortError to PermissionDenied ("https"/"permission" tags per the
code), NotFoundError, NotReadableError and OverconstrainedError to
General, SecurityError to SecureContextRequired. -/
theorem getErrorInfo_recognized_names :
    getErrorInfo Env.full (RawFailure.domException "NotAllowedError")
      = { type := ERROR_TYPES.PERMISSION, message := "Screen sharing access denied" } ∧
    getErrorInfo Env.full (RawFailure.domException "AbortError")
      = { type := ERROR_TYPES.PERMISSION, message := "Screen sharing was cancelled" } ∧
    getErrorInfo Env.full (RawFailure.domException "NotFoundError")
      = { type := ERROR_TYPES.GENERAL, message := "No screen available for sharing" } ∧
    getErrorInfo Env.full (RawFailure.domException "NotReadableError")
      = { type := ERROR_TYPES.GENERAL, message := "Screen is already being captured" } ∧
    getErrorInfo Env.full (RawFailure.domException "OverconstrainedError")
      = { type := ERROR_TYPES.GENERAL, message := "Screen doesn\x27t meet capture requirements" } ∧
    getErrorInfo Env.full (RawFailure.domException "SecurityError")
      = { type := ERROR_TYPES.HTTPS, message := "Security error accessing screen" } := by
  refine ⟨?_, ?_, ?_, ?_, ?_, ?_⟩ <;> decide

/-- Claim C2: for every raw failure, an absent capability surface
yields category SecureContextRequired ("https"), and a present surface
with an absent capture-request function yields Unsupported
("not-supported"); these environment checks come first, in that order,
before any exception-name inspection. -/
theorem getErrorInfo_env_precedence (err : RawFailure) :
    (getErrorInfo Env.noMediaDevices err).type = ERROR_TYPES.HTTPS ∧
    (getErrorInfo Env.noGetDisplayMedia err).type = ERROR_TYPES.NOT_SUPPORTED := by
  exact ⟨rfl, rfl⟩

/-- Helper: the classifier only ever emits one of the four category
tags of `ERROR_TYPES`, whatever the environment and failure shape. -/
theorem getErrorInfo_type_cases (env : Env) (err : RawFailure) :
    (getErrorInfo env err).type = ERROR_TYPES.HTTPS ∨
    (getErrorInfo env err).type = ERROR_TYPES.NOT_SUPPORTED ∨
    (getErrorInfo env err).type = ERROR_TYPES.PERMISSION ∨
    (getErrorInfo env err).type = ERROR_TYPES.GENERAL := by
  cases env with
  | noMediaDevices => exact Or.inl rfl
  | noGetDisplayMedia => exact Or.inr (Or.inl rfl)
  | full =>
    cases err with
    | domException name =>
      simp only [getErrorInfo]
      split_ifs <;>
        first
          | exact Or.inl rfl
          | exact Or.inr (Or.inl rfl)
          | exact Or.inr (Or.inr (Or.inl rfl))
          | exact Or.inr (Or.inr (Or.inr rfl))
    | jsError m => exact Or.inr (Or.inr (Or.inr rfl))
    | nullish => exact Or.inr (Or.inr (Or.inr rfl))

/-- Claim C3: `getErrorInfo` is total: for every environment and every
raw failure, including nullish and shapeless ones, the result carries
one of the four defined categories; and when the failure has no
recognizable exception name or shape (a plain JS error or a nullish
value, with the capability surface intact) it defaults to General with
the generic "Failed to access screen" message. -/
theorem getErrorInfo_total (env : Env) (err : RawFailure) :
    ((getErrorInfo env err).type = ERROR_TYPES.HTTPS ∨
     (getErrorInfo env err).type = ERROR_TYPES.NOT_SUPPORTED ∨
     (getErrorInfo env err).type = ERROR_TYPES.PERMISSION ∨
     (getErrorInfo env err).type = ERROR_TYPES.GENERAL) ∧
    (∀ m, getErrorInfo Env.full (RawFailure.jsError m)
        = { type := ERROR_TYPES.GENERAL, message := "Failed to access screen" }) ∧
    getErrorInfo Env.full RawFailure.nullish
        = { type := ERROR_TYPES.GENERAL, message := "Failed to access screen" } :=
  ⟨getErrorInfo_type_cases env err, fun _ => rfl, rfl⟩

/-- Claim C5: with the environment checks passing, a named exception
outside the six recognized names classifies as General, and the
message contains the exception name verbatim. -/
theorem getErrorInfo_unrecognized_name (name : String)
    (h1 : name ≠ "NotAllowedError") (h2 : name ≠ "NotFoundError")
    (h3 : name ≠ "NotReadableError") (h4 : name ≠ "OverconstrainedError")
    (h5 : name ≠ "SecurityError") (h6 : name ≠ "AbortError") :
    getErrorInfo Env.full (RawFailure.domException name)
      = { type := ERROR_TYPES.GENERAL, message := "Screen sharing error: " ++ name } := by
  simp only [getErrorInfo]
  rw [if_neg h1, if_neg h2, if_neg h3, if_neg h4, if_neg h5, if_neg h6]

/-- Witness for C5 at the concrete unrecognized name "TypeError". -/
theorem getErrorInfo_unrecognized_name_witness :
    ("TypeError" : String) ≠ "NotAllowedError" ∧
    ("TypeError" : String) ≠ "NotFoundError" ∧
    ("TypeError" : String) ≠ "NotReadableError" ∧
    ("TypeError" : String) ≠ "OverconstrainedError" ∧
    ("TypeError" : String) ≠ "SecurityError" ∧
    ("TypeError" : String) ≠ "AbortError" ∧
    getErrorInfo Env.full (RawFailure.domException "TypeError")
      = { type := ERROR_TYPES.GENERAL, message := "Screen sharing error: " ++ "TypeError" } :=
  ⟨by decide, by decide, by decide, by decide, by decide, by decide,
   getErrorInfo_unrecognized_name "TypeError" (by decide) (by decide) (by decide)
     (by decide) (by decide) (by decide)⟩

/-- A captured media stream, identified with the id of the video track
the platform delivers with it. -/
structure MediaStream where
  videoTrack : Nat
deriving DecidableEq, Repr

/-- Outcome of the platform capture request once issued: the user
approves and a stream is delivered, or the platform raises a failure. -/
inductive CaptureOutcome where
  | success (stream : MediaStream)
  | failure (err : RawFailure)
deriving DecidableEq, Repr

/-- The observable actions `requestScreenShare` performs: the two
state setters, the platform capture call, the registration of the
end-of-stream listener on a video track, and the grant callback. -/
inductive ReqAction where
  | setIsRequesting (b : Bool)
  | setError (e : Option ErrorInfo)
  | callGetDisplayMedia (c : DisplayConstraints)
  | addEndedListener (track : Nat)
  | onPermissionGranted (stream : MediaStream)
deriving DecidableEq, Repr

/-- The trace of one `requestScreenShare` invocation: set the
in-flight flag and clear the stored error; when `getDisplayMedia` is
unreachable (absent `mediaDevices` or absent `getDisplayMedia`) throw
before the platform call and classify that error in the catch block;
otherwise call the platform with `DISPLAY_CONSTRAINTS` and, on
success, register the ended-listener on the stream video track and
invoke the grant callback, or, on failure, classify and store the
error; the finally block clears the in-flight flag. -/
def requestScreenShare (env : Env) (outcome : CaptureOutcome) : List ReqAction :=
  [ReqAction.setIsRequesting true, ReqAction.setError none] ++
    (match env with
     | Env.full =>
         match outcome with
         | CaptureOutcome.success stream =>
             [ReqAction.callGetDisplayMedia DISPLAY_CONSTRAINTS,
              ReqAction.addEndedListener stream.videoTrack,
              ReqAction.onPermissionGranted stream]
         | CaptureOutcome.failure err =>
             [ReqAction.callGetDisplayMedia DISPLAY_CONSTRAINTS,
              ReqAction.setError (some (getErrorInfo Env.full err))]
     | e =>
         [ReqAction.setError (some (getErrorInfo e (RawFailure.jsError "NOT_SUPPORTED")))]) ++
    [ReqAction.setIsRequesting false]

/-- The component state the setters act on: the `isRequesting` flag
and the stored classified error. -/
structure ComponentState where
  isRequesting : Bool
  error : Option ErrorInfo
deriving DecidableEq, Repr

/-- Effect of one action on the component state: the two setters write
their field; the remaining actions leave the state unchanged. -/
def applyAction (s : ComponentState) : ReqAction → ComponentState
  | ReqAction.setIsRequesting b => { s with isRequesting := b }
  | ReqAction.setError e => { s with error := e }
  | _ => s

/-- Run a trace of actions from a starting state. -/
def runActions (s : ComponentState) (actions : List ReqAction) : ComponentState :=
  actions.foldl applyAction s

/-- The retry trigger (`GlassButton` with `disabled=isRequesting`) is
disabled exactly when a request is in flight. -/
def retryButtonDisabled (s : ComponentState) : Bool :=
  s.isRequesting

/-- Whether an action stores a non-null classified error. -/
def isSetErrorSome : ReqAction → Bool
  | ReqAction.setError (some _) => true
  | _ => false

/-- Whether an action is the platform capture call. -/
def isCallGetDisplayMedia : ReqAction → Bool
  | ReqAction.callGetDisplayMedia _ => true
  | _ => false

/-- Whether an action clears the in-flight flag. -/
def isClearRequesting : ReqAction → Bool
  | ReqAction.setIsRequesting false => true
  | _ => false

/-- Whether an action registers the end-of-stream listener. -/
def isAddEndedListener : ReqAction → Bool
  | ReqAction.addEndedListener _ => true
  | _ => false

/-- Whether an action invokes the grant callback. -/
def isGrantCallback : ReqAction → Bool
  | ReqAction.onPermissionGranted _ => true
  | _ => false

/-- Claim C4: when the capability surface or the capture-request
function is absent, `requestScreenShare` never issues the platform
capture call (no user prompt), and ends Failed: the in-flight flag is
cleared and the stored error carries category SecureContextRequired
("https") or Unsupported ("not-supported"). -/
theorem requestScreenShare_env_absent_no_prompt (env : Env) (outcome : CaptureOutcome)
    (s : ComponentState) (h : env ≠ Env.full) :
    (requestScreenShare env outcome).countP isCallGetDisplayMedia = 0 ∧
    (runActions s (requestScreenShare env outcome)).isRequesting = false ∧
    ∃ e, (runActions s (requestScreenShare env outcome)).error = some e ∧
      (e.type = ERROR_TYPES.HTTPS ∨ e.type = ERROR_TYPES.NOT_SUPPORTED) := by
  cases env with
  | full => exact absurd rfl h
  | noMediaDevices => exact ⟨rfl, rfl, ⟨_, rfl, Or.inl rfl⟩⟩
  | noGetDisplayMedia => exact ⟨rfl, rfl, ⟨_, rfl, Or.inr rfl⟩⟩

/-- Witness for C4 at the concrete environment with no capability
surface at all. -/
theorem requestScreenShare_env_absent_no_prompt_witness :
    Env.noMediaDevices ≠ Env.full ∧
    ((requestScreenShare Env.noMediaDevices (CaptureOutcome.failure RawFailure.nullish)).countP
        isCallGetDisplayMedia = 0 ∧
      (runActions { isRequesting := false, error := none }
          (requestScreenShare Env.noMediaDevices
            (CaptureOutcome.failure RawFailure.nullish))).isRequesting = false ∧
      ∃ e, (runActions { isRequesting := false, error := none }
          (requestScreenShare Env.noMediaDevices
            (CaptureOutcome.failure RawFailure.nullish))).error = some e ∧
        (e.type = ERROR_TYPES.HTTPS ∨ e.type = ERROR_TYPES.NOT_SUPPORTED)) :=
  ⟨by decide,
   requestScreenShare_env_absent_no_prompt Env.noMediaDevices
     (CaptureOutcome.failure RawFailure.nullish)
     { isRequesting := false, error := none } (by decide)⟩

/-- Claim C6: every invocation first sets the in-flight flag and
clears the stored error (the first two actions, before the capture
request is issued); at most one non-null error is stored per
invocation, and every failure outcome stores exactly one, so a retry
after Failed clears the prior error before a new one can be set. -/
theorem requestScreenShare_clears_error_first (env : Env) (outcome : CaptureOutcome) :
    (requestScreenShare env outcome).take 2
      = [ReqAction.setIsRequesting true, ReqAction.setError none] ∧
    (requestScreenShare env outcome).countP isSetErrorSome ≤ 1 ∧
    (∀ err, (requestScreenShare env (CaptureOutcome.failure err)).countP isSetErrorSome = 1) := by
  cases env <;> cases outcome <;>
    refine ⟨rfl, ?_, fun err => rfl⟩ <;>
    first
      | exact Nat.le_of_eq rfl
      | exact Nat.zero_le 1

/-- Claim C7: the first action of every invocation sets the in-flight
flag, the last action clears it, the clear happens exactly once per
invocation (the finally block, on success and failure alike), and at
every intermediate point of the trace the retry trigger is disabled
because `isRequesting` is still true. -/
theorem requestScreenShare_inflight_flag (env : Env) (outcome : CaptureOutcome)
    (s : ComponentState) :
    (requestScreenShare env outcome).head? = some (ReqAction.setIsRequesting true) ∧
    (requestScreenShare env outcome).getLast? = some (ReqAction.setIsRequesting false) ∧
    (requestScreenShare env outcome).countP isClearRequesting = 1 ∧
    ((((requestScreenShare env outcome).scanl applyAction s).drop 1).dropLast.all
        retryButtonDisabled = true) := by
  cases env <;> cases outcome <;> exact ⟨rfl, rfl, rfl, rfl⟩

/-- Claim C8: on a successful platform response with the capability
present, the trace registers exactly one end-of-stream listener, on
the stream video track, and invokes the grant callback exactly once
with that stream; the run ends in the Granted shape: no stored error
and the in-flight flag cleared. -/
theorem requestScreenShare_success_registers_observer (stream : MediaStream)
    (s : ComponentState) :
    (requestScreenShare Env.full (CaptureOutcome.success stream)).countP
        isAddEndedListener = 1 ∧
    ReqAction.addEndedListener stream.videoTrack
      ∈ requestScreenShare Env.full (CaptureOutcome.success stream) ∧
    (requestScreenShare Env.full (CaptureOutcome.success stream)).countP
        isGrantCallback = 1 ∧
    ReqAction.onPermissionGranted stream
      ∈ requestScreenShare Env.full (CaptureOutcome.success stream) ∧
    (runActions s (requestScreenShare Env.full (CaptureOutcome.success stream))).error
        = none ∧
    (runActions s (requestScreenShare Env.full (CaptureOutcome.success stream))).isRequesting
        = false := by
  refine ⟨rfl, ?_, rfl, ?_, rfl, rfl⟩
  · exact List.Mem.tail _ (List.Mem.tail _ (List.Mem.tail _ (List.Mem.head _)))
  · exact List.Mem.tail _ (List.Mem.tail _ (List.Mem.tail _ (List.Mem.tail _ (List.Mem.head _))))

/-- Claim C9: every platform capture call in any trace carries exactly
the fixed `DISPLAY_CONSTRAINTS`: video 1920x1080 at 60fps with max
equal to ideal, and audio false. -/
theorem requestScreenShare_constraints (env : Env) (outcome : CaptureOutcome)
    (c : DisplayConstraints)
    (h : ReqAction.callGetDisplayMedia c ∈ requestScreenShare env outcome) :
    c = DISPLAY_CONSTRAINTS ∧
    c.video.width.ideal = 1920 ∧ c.video.width.max = 1920 ∧
    c.video.height.ideal = 1080 ∧ c.video.height.max = 1080 ∧
    c.video.frameRate.ideal = 60 ∧ c.video.frameRate.max = 60 ∧
    c.audio = false := by
  have hc : c = DISPLAY_CONSTRAINTS := by
    cases env <;> cases outcome <;> simp [requestScreenShare] at h <;> exact h
  subst hc
  exact ⟨rfl, rfl, rfl, rfl, rfl, rfl, rfl, rfl⟩

/-- Witness for C9 at the call in a concrete successful trace. -/
theorem requestScreenShare_constraints_witness :
    (ReqAction.callGetDisplayMedia DISPLAY_CONSTRAINTS
      ∈ requestScreenShare Env.full (CaptureOutcome.success { videoTrack := 0 })) ∧
    (DISPLAY_CONSTRAINTS = DISPLAY_CONSTRAINTS ∧
     DISPLAY_CONSTRAINTS.video.width.ideal = 1920 ∧
     DISPLAY_CONSTRAINTS.video.width.max = 1920 ∧
     DISPLAY_CONSTRAINTS.video.height.ideal = 1080 ∧
     DISPLAY_CONSTRAINTS.video.height.max = 1080 ∧
     DISPLAY_CONSTRAINTS.video.frameRate.ideal = 60 ∧
     DISPLAY_CONSTRAINTS.video.frameRate.max = 60 ∧
     DISPLAY_CONSTRAINTS.audio = false) :=
  ⟨by decide,
   requestScreenShare_constraints Env.full (CaptureOutcome.success { videoTrack := 0 })
     DISPLAY_CONSTRAINTS (by decide)⟩

/-- A remediation entry: a title and an ordered list of steps. -/
structure TroubleshootingEntry where
  title : String
  items : List String
deriving DecidableEq, Repr

/-- The `troubleshootingData` lookup of the source, keyed by the
`ERROR_TYPES` strings; a key outside the four is undefined (`none`),
as a JS object lookup would be. -/
def troubleshootingData (key : String) : Option TroubleshootingEntry :=
  if key = ERROR_TYPES.HTTPS then
    some { title := "🔒 HTTPS Required"
         , items :=
             ["Access this app via https:// instead of http://",
              "If developing locally, use localhost (exempt from HTTPS requirement)",
              "Deploy to a hosting service that provides HTTPS (Vercel, Netlify, GitHub Pages)"] }
  else if key = ERROR_TYPES.NOT_SUPPORTED then
    some { title := "🌐 Browser Compatibility"
         , items :=
             ["Update your browser to the latest version",
              "Use Chrome 72+, Edge 79+, Firefox 66+, or Safari 13+",
              "Enable JavaScript if disabled"] }
  else if key = ERROR_TYPES.PERMISSION then
    some { title := "🚫 Permission Issues"
         , items :=
             ["Click \x27Share\x27 when the screen sharing dialog appears",
              "Select your game window or entire screen",
              "Make sure to select \x27Share audio\x27 if you want game sounds",
              "Check browser settings → Privacy & Security → Screen sharing"] }
  else if key = ERROR_TYPES.GENERAL then
    some { title := "General Troubleshooting"
         , items :=
             ["Make sure your game is running and visible",
              "Try selecting \x27Entire Screen\x27 instead of a specific window",
              "Close other screen recording/sharing applications",
              "Try using a different browser or restarting your browser"] }
  else none

/-- The `getTroubleshootingContent` accessor of the source: nothing
when no error is stored, otherwise the lookup at the stored error's
category. -/
def getTroubleshootingContent (error : Option ErrorInfo) : Option TroubleshootingEntry :=
  match error with
  | none => none
  | some e => troubleshootingData e.type

/-- Claim C10: the remediation table has an entry with a non-empty
step list for each of the four error categories, so the lookup is
defined (never `none`) at every error the classifier can produce. -/
theorem troubleshootingData_covers_all_categories (env : Env) (err : RawFailure) :
    (∃ e1, troubleshootingData ERROR_TYPES.HTTPS = some e1 ∧ e1.items ≠ []) ∧
    (∃ e2, troubleshootingData ERROR_TYPES.NOT_SUPPORTED = some e2 ∧ e2.items ≠ []) ∧
    (∃ e3, troubleshootingData ERROR_TYPES.PERMISSION = some e3 ∧ e3.items ≠ []) ∧
    (∃ e4, troubleshootingData ERROR_TYPES.GENERAL = some e4 ∧ e4.items ≠ []) ∧
    (∃ entry, getTroubleshootingContent (some (getErrorInfo env err)) = some entry ∧
      entry.items ≠ []) := by
  refine ⟨⟨_, rfl, List.cons_ne_nil _ _⟩, ⟨_, rfl, List.cons_ne_nil _ _⟩,
    ⟨_, rfl, List.cons_ne_nil _ _⟩, ⟨_, rfl, List.cons_ne_nil _ _⟩, ?_⟩
  show ∃ entry, troubleshootingData (getErrorInfo env err).type = some entry ∧
    entry.items ≠ []
  rcases getErrorInfo_type_cases env err with h | h | h | h <;> rw [h] <;>
    exact ⟨_, rfl, List.cons_ne_nil _ _⟩
